import Mathlib

/-!
Shallow embedding of the `image-color-grading` rendering engine
(WiseLee0/image-effect).  JavaScript numbers are modelled as rationals,
`ImageData` as a width/height pair with a flat channel list, and the
stateful `ImageColorGrading` class as explicit state passing.  Each
definition is translated from one source function, named after it.
-/

namespace ImageEffect

/-- JavaScript `Math.round`: round half toward positive infinity. -/
def jsRound (q : ℚ) : ℤ := ⌊q + 1/2⌋

/-- Model of a DOM `ImageData`: `data` is the flat RGBA byte array
(`data.length = 4 * width * height` for well-formed inputs). -/
structure ImageData where
  width : ℕ
  height : ℕ
  data : List ℕ
  deriving DecidableEq

/-- The (r, g, b) channel triples visited by the source loops
`for (let i = 0; i < data.length; i += 4)`, which read
`data[i]`, `data[i+1]`, `data[i+2]` and skip the alpha byte. -/
def rgbTriples : List ℕ → List (ℕ × ℕ × ℕ)
  | r :: g :: b :: _ :: rest => (r, g, b) :: rgbTriples rest
  | _ => []

/-- The multiset of R, G and B channel values of an image, in loop order.
The source increments `histogram[data[i]]`, `histogram[data[i+1]]`,
`histogram[data[i+2]]` per iteration. -/
def channelValues : List ℕ → List ℕ
  | r :: g :: b :: _ :: rest => r :: g :: b :: channelValues rest
  | _ => []

/-- Histogram bucket `v` of `analyzeImageLevels`: how many R/G/B channel
occurrences have value `v`. -/
def hist (img : ImageData) (v : ℕ) : ℕ := (channelValues img.data).count v

/-- The cut-off `const threshold = Math.round((width * height) / 1e3)` of
`analyzeImageLevels` (0.1% of the pixel count). -/
def levelThreshold (img : ImageData) : ℤ :=
  jsRound ((img.width * img.height : ℚ) / 1000)

/-- Result record of `analyzeImageLevels`. -/
structure ImageLevels where
  black : ℕ
  white : ℕ
  deriving DecidableEq

/-- Translation of `analyzeImageLevels` (processor.ts):
scan the histogram upward for the first bucket strictly above the
threshold (`black`, defaulting to 0), downward for the last such bucket
(`white`, defaulting to 255), then clamp `black` to at most 100 and
`white` to at least 155. -/
def analyzeImageLevels (img : ImageData) : ImageLevels :=
  let t := levelThreshold img
  let black :=
    ((List.range 256).find? fun i => decide (t < (hist img i : ℤ))).getD 0
  let white :=
    (((List.range 256).reverse).find? fun i => decide (t < (hist img i : ℤ))).getD 255
  { black := min black 100, white := max white 155 }

/-- One iteration of the `analyzeImageVibrance` loop: the accumulator pair is
(`saturationSum`, `brightnessSum`).  Brightness accumulates `max / 255` for
every pixel; saturation accumulates `chroma / max` only when `chroma > 0`. -/
def vibranceStep (acc : ℚ × ℚ) (px : ℕ × ℕ × ℕ) : ℚ × ℚ :=
  let mn : ℕ := min px.1 (min px.2.1 px.2.2)
  let mx : ℕ := max px.1 (max px.2.1 px.2.2)
  let brightnessSum := acc.2 + (mx : ℚ) / 255
  let chroma : ℕ := mx - mn
  let saturationSum := if 0 < chroma then acc.1 + (chroma : ℚ) / mx else acc.1
  (saturationSum, brightnessSum)

/-- Translation of `analyzeImageVibrance` (processor.ts): both sums start
at 1, the loop walks every pixel, and the result is
`(saturationSum + brightnessSum) / (pixelCount * 2)`. -/
def analyzeImageVibrance (img : ImageData) : ℚ :=
  let s := (rgbTriples img.data).foldl vibranceStep (1, 1)
  (s.1 + s.2) / ((img.width * img.height : ℚ) * 2)

/-- Specification-side per-pixel brightness term: `max(R,G,B) / 255`. -/
def brightTerm (px : ℕ × ℕ × ℕ) : ℚ :=
  (max px.1 (max px.2.1 px.2.2) : ℚ) / 255

/-- Specification-side per-pixel saturation term: `(max - min) / max` when the
chroma `max - min` is strictly positive, otherwise 0. -/
def satTerm (px : ℕ × ℕ × ℕ) : ℚ :=
  let mn : ℕ := min px.1 (min px.2.1 px.2.2)
  let mx : ℕ := max px.1 (max px.2.1 px.2.2)
  if 0 < mx - mn then ((mx - mn : ℕ) : ℚ) / mx else 0

/-- Specification-side saturation sum (without the +1 bias). -/
def sumSaturation (pxs : List (ℕ × ℕ × ℕ)) : ℚ := (pxs.map satTerm).sum

/-- Specification-side brightness sum (without the +1 bias). -/
def sumBrightness (pxs : List (ℕ × ℕ × ℕ)) : ℚ := (pxs.map brightTerm).sum

theorem vibranceStep_eq (acc : ℚ × ℚ) (px : ℕ × ℕ × ℕ) :
    vibranceStep acc px = (acc.1 + satTerm px, acc.2 + brightTerm px) := by
  by_cases h : 0 < (max px.1 (max px.2.1 px.2.2)) - (min px.1 (min px.2.1 px.2.2)) <;>
    simp [vibranceStep, satTerm, brightTerm, h, Nat.cast_max]

theorem vibrance_foldl (l : List (ℕ × ℕ × ℕ)) :
    ∀ a b : ℚ, l.foldl vibranceStep (a, b) = (a + sumSaturation l, b + sumBrightness l) := by
  induction l with
  | nil => intro a b; simp [sumSaturation, sumBrightness]
  | cons x xs ih =>
    intro a b
    simp only [List.foldl_cons, vibranceStep_eq, ih, sumSaturation, sumBrightness,
      List.map_cons, List.sum_cons]
    simp [add_assoc]

/-- C6: for every `ImageData`, `analyzeImageVibrance` returns
`(sumSaturation + sumBrightness) / (2 * pixelCount)` where both sums are
initialised at 1, brightness accumulates `max(R,G,B)/255` for every pixel, and
saturation accumulates `(max - min)/max` only for pixels with strictly
positive chroma. -/
theorem analyzeImageVibrance_spec (img : ImageData) :
    analyzeImageVibrance img =
      ((1 + sumSaturation (rgbTriples img.data)) + (1 + sumBrightness (rgbTriples img.data))) /
        (2 * (img.width * img.height : ℚ)) := by
  unfold analyzeImageVibrance
  rw [vibrance_foldl]
  rw [mul_comm ((img.width : ℚ) * (img.height : ℚ)) 2]

theorem find?_range_min {p : ℕ → Bool} :
    ∀ {n b : ℕ}, (List.range n).find? p = some b →
      p b = true ∧ ∀ v < b, p v = false := by
  intro n
  induction n with
  | zero => intro b h; simp at h
  | succ n ih =>
    intro b h
    rw [List.range_succ, List.find?_append] at h
    rcases hfa : (List.range n).find? p with _ | b0
    · rw [hfa] at h
      simp only [Option.none_or, List.find?_cons_eq_some] at h
      rcases h with ⟨hpn, hb⟩ | ⟨_, hcontra⟩
      swap
      · simp at hcontra
      subst hb
      refine ⟨hpn, fun v hv => ?_⟩
      have hv2 := List.find?_eq_none.mp hfa v (List.mem_range.mpr hv)
      simpa using hv2
    · rw [hfa] at h
      simp only [Option.or_some, Option.some.injEq] at h
      subst h
      exact ih hfa

theorem find?_reverse_range_max {p : ℕ → Bool} :
    ∀ {n w : ℕ}, ((List.range n).reverse).find? p = some w →
      w < n ∧ p w = true ∧ ∀ v, w < v → v < n → p v = false := by
  intro n
  induction n with
  | zero => intro w h; simp at h
  | succ n ih =>
    intro w h
    rw [List.range_succ, List.reverse_append, List.reverse_cons, List.reverse_nil,
      List.nil_append, List.singleton_append, List.find?_cons_eq_some] at h
    rcases h with ⟨hpn, hw⟩ | ⟨hpn, hrest⟩
    · subst hw
      exact ⟨Nat.lt_succ_self _, hpn, fun v hv1 hv2 => absurd hv2 (by omega)⟩
    · obtain ⟨hwn, hpw, hmax⟩ := ih hrest
      refine ⟨by omega, hpw, fun v hv1 hv2 => ?_⟩
      rcases Nat.lt_succ_iff_lt_or_eq.mp hv2 with h2 | h2
      · exact hmax v hv1 h2
      · subst h2; simpa using hpn

/-- C5: for every `ImageData`, `analyzeImageLevels` returns as `black` the
smallest channel value whose histogram bucket strictly exceeds
`round(width*height/1000)` (0 when no bucket does), clamped to at most 100,
and as `white` the largest such value (255 when none), clamped to at least
155; consequently `black ≤ 100` and `155 ≤ white ≤ 255` always hold. -/
theorem analyzeImageLevels_spec (img : ImageData) :
    (analyzeImageLevels img).black ≤ 100 ∧
    155 ≤ (analyzeImageLevels img).white ∧
    (analyzeImageLevels img).white ≤ 255 ∧
    ((∀ v < 256, (hist img v : ℤ) ≤ levelThreshold img) →
      (analyzeImageLevels img).black = 0 ∧ (analyzeImageLevels img).white = 255) ∧
    (∀ b, b < 256 → levelThreshold img < (hist img b : ℤ) →
      (∀ v < b, (hist img v : ℤ) ≤ levelThreshold img) →
      (analyzeImageLevels img).black = min b 100) ∧
    (∀ w, w < 256 → levelThreshold img < (hist img w : ℤ) →
      (∀ v, w < v → v < 256 → (hist img v : ℤ) ≤ levelThreshold img) →
      (analyzeImageLevels img).white = max w 155) := by
  have hblack : (analyzeImageLevels img).black
      = min (((List.range 256).find?
          fun i => decide (levelThreshold img < (hist img i : ℤ))).getD 0) 100 := rfl
  have hwhite : (analyzeImageLevels img).white
      = max ((((List.range 256).reverse).find?
          fun i => decide (levelThreshold img < (hist img i : ℤ))).getD 255) 155 := rfl
  refine ⟨?_, ?_, ?_, ?_, ?_, ?_⟩
  · rw [hblack]; exact min_le_right _ _
  · rw [hwhite]; exact le_max_right _ _
  · rw [hwhite]
    rcases hfw : ((List.range 256).reverse).find?
        (fun i => decide (levelThreshold img < (hist img i : ℤ))) with _ | w0
    · simp
    · have hw0 := (find?_reverse_range_max hfw).1
      simp only [Option.getD_some]
      omega
  · intro hall
    have hfb : (List.range 256).find?
        (fun i => decide (levelThreshold img < (hist img i : ℤ))) = none := by
      refine List.find?_eq_none.mpr fun x hx => ?_
      simp only [decide_eq_true_eq]
      exact not_lt.mpr (hall x (List.mem_range.mp hx))
    have hfw : ((List.range 256).reverse).find?
        (fun i => decide (levelThreshold img < (hist img i : ℤ))) = none := by
      refine List.find?_eq_none.mpr fun x hx => ?_
      simp only [decide_eq_true_eq]
      exact not_lt.mpr (hall x (List.mem_range.mp (List.mem_reverse.mp hx)))
    rw [hblack, hwhite, hfb, hfw]
    simp
  · intro b hb256 hbt hbmin
    rcases hfb : (List.range 256).find?
        (fun i => decide (levelThreshold img < (hist img i : ℤ))) with _ | b0
    · exfalso
      have := List.find?_eq_none.mp hfb b (List.mem_range.mpr hb256)
      simp only [decide_eq_true_eq] at this
      exact this hbt
    · obtain ⟨hpb0, hmin⟩ := find?_range_min hfb
      simp only [decide_eq_true_eq] at hpb0
      have hb0b : b0 = b := by
        rcases Nat.lt_trichotomy b0 b with h | h | h
        · exact absurd hpb0 (not_lt.mpr (hbmin b0 h))
        · exact h
        · have := hmin b h
          simp only [decide_eq_true_eq] at this
          exact absurd hbt (by simpa using this)
      rw [hblack, hfb, Option.getD_some, hb0b]
  · intro w hw256 hwt hwmax
    rcases hfw : ((List.range 256).reverse).find?
        (fun i => decide (levelThreshold img < (hist img i : ℤ))) with _ | w0
    · exfalso
      have := List.find?_eq_none.mp hfw w
        (List.mem_reverse.mpr (List.mem_range.mpr hw256))
      simp only [decide_eq_true_eq] at this
      exact this hwt
    · obtain ⟨hw0256, hpw0, hmax⟩ := find?_reverse_range_max hfw
      simp only [decide_eq_true_eq] at hpw0
      have hw0w : w0 = w := by
        rcases Nat.lt_trichotomy w0 w with h | h | h
        · have := hmax w h hw256
          simp only [decide_eq_true_eq] at this
          exact absurd hwt (by simpa using this)
        · exact h
        · exact absurd hpw0 (not_lt.mpr (hwmax w0 h hw0256))
      rw [hwhite, hfw, Option.getD_some, hw0w]

/-- Translation of `ColorGradingSettings` (types.ts): a flat record of 21
numeric fields. -/
structure Settings where
  vibrance : ℚ
  saturation : ℚ
  temperature : ℚ
  tint : ℚ
  hue : ℚ
  brightness : ℚ
  exposure : ℚ
  contrast : ℚ
  blacks : ℚ
  whites : ℚ
  highlights : ℚ
  shadows : ℚ
  dehaze : ℚ
  bloom : ℚ
  glamour : ℚ
  clarity : ℚ
  sharpen : ℚ
  smooth : ℚ
  blur : ℚ
  vignette : ℚ
  grain : ℚ
  deriving DecidableEq

/-- Translation of `defaultSettings` (processor.ts): every field is 0. -/
def defaultSettings : Settings :=
  { vibrance := 0, saturation := 0, temperature := 0, tint := 0, hue := 0,
    brightness := 0, exposure := 0, contrast := 0, blacks := 0, whites := 0,
    highlights := 0, shadows := 0, dehaze := 0, bloom := 0, glamour := 0,
    clarity := 0, sharpen := 0, smooth := 0, blur := 0, vignette := 0,
    grain := 0 }

/-- Translation of `PartialColorGradingSettings` (`Partial<ColorGradingSettings>`):
each field may be absent.  JavaScript object literals leave unnamed fields
absent, hence the `none` defaults. -/
structure PartialSettings where
  vibrance : Option ℚ := none
  saturation : Option ℚ := none
  temperature : Option ℚ := none
  tint : Option ℚ := none
  hue : Option ℚ := none
  brightness : Option ℚ := none
  exposure : Option ℚ := none
  contrast : Option ℚ := none
  blacks : Option ℚ := none
  whites : Option ℚ := none
  highlights : Option ℚ := none
  shadows : Option ℚ := none
  dehaze : Option ℚ := none
  bloom : Option ℚ := none
  glamour : Option ℚ := none
  clarity : Option ℚ := none
  sharpen : Option ℚ := none
  smooth : Option ℚ := none
  blur : Option ℚ := none
  vignette : Option ℚ := none
  grain : Option ℚ := none
  deriving DecidableEq

/-- The JavaScript object spread `{ ...s, ...p }`: every field present in `p`
overrides the corresponding field of `s`. -/
def mergeSettings (s : Settings) (p : PartialSettings) : Settings :=
  { vibrance := p.vibrance.getD s.vibrance,
    saturation := p.saturation.getD s.saturation,
    temperature := p.temperature.getD s.temperature,
    tint := p.tint.getD s.tint,
    hue := p.hue.getD s.hue,
    brightness := p.brightness.getD s.brightness,
    exposure := p.exposure.getD s.exposure,
    contrast := p.contrast.getD s.contrast,
    blacks := p.blacks.getD s.blacks,
    whites := p.whites.getD s.whites,
    highlights := p.highlights.getD s.highlights,
    shadows := p.shadows.getD s.shadows,
    dehaze := p.dehaze.getD s.dehaze,
    bloom := p.bloom.getD s.bloom,
    glamour := p.glamour.getD s.glamour,
    clarity := p.clarity.getD s.clarity,
    sharpen := p.sharpen.getD s.sharpen,
    smooth := p.smooth.getD s.smooth,
    blur := p.blur.getD s.blur,
    vignette := p.vignette.getD s.vignette,
    grain := p.grain.getD s.grain }

/-- Translation of `PresetType` (types.ts). -/
inductive PresetType
  | auto
  | blackAndWhite
  | pop
  | vintage
  | vivid
  | cinematic
  deriving DecidableEq

/-- Translation of the `presets` table (processor.ts). -/
def presets : PresetType → PartialSettings
  | .auto => {}
  | .blackAndWhite =>
      { saturation := some (-100), contrast := some 20, exposure := some 10,
        clarity := some 10 }
  | .pop =>
      { highlights := some 50, shadows := some (-50), vibrance := some 50,
        saturation := some 20, exposure := some 20, clarity := some 20 }
  | .vintage =>
      { saturation := some (-20), contrast := some 10, temperature := some 15,
        grain := some 30, vignette := some 25 }
  | .vivid =>
      { vibrance := some 40, saturation := some 20, contrast := some 15,
        clarity := some 20 }
  | .cinematic =>
      { contrast := some 25, highlights := some (-20), shadows := some 15,
        temperature := some (-10), vignette := some 30 }

/-- Identifier of one GPU draw in `drawFrame`: one shader program per effect,
the blur program invoked twice (horizontal then vertical), and the final
pass-through blit to the visible surface. -/
inductive PassId
  | vibrance | saturation | temperature | tint | hue | brightness | exposure
  | contrast | blacks | whites | highlights | shadows | dehaze | bloom
  | glamour | clarity | sharpen | smooth | blurH | blurV | vignette | grain
  | finalBlit
  deriving DecidableEq

/-- One executed draw call of `drawFrame`: the program it uses and the scalar
effect uniform it uploads (`uAmount`/`uRotation` in the WebGL backend, the
corresponding uniform-buffer component in the WebGPU backend).  Matrix,
palette, kernel, texel-size and resolution uniforms are modelled separately
(`buildSaturationMatrix`) or omitted. -/
structure Pass where
  id : PassId
  amount : Option ℚ
  deriving DecidableEq

/-- Translation of `drawFrame` (backends/webgl/index.ts lines 311-573, and
identically processor.ts lines 713-975): the list of draw calls issued for
one render, in program order, with each pass's scalar uniform.  Each guarded
block mirrors one `if (...) drawPass(...)` of the source; brightness, the two
blur sub-passes, vignette, grain and the final blit are unconditional in the
source. -/
def drawFrame (s : Settings) : List Pass :=
  (if 1/2 < |s.vibrance| then [⟨.vibrance, some (s.vibrance / 100)⟩] else []) ++
  (if 1/2 < |s.saturation| then [⟨.saturation, none⟩] else []) ++
  (if 1/2 < |s.temperature| then [⟨.temperature, some (s.temperature / 500)⟩] else []) ++
  (if 1/2 < |s.tint| then [⟨.tint, some (s.tint / 500)⟩] else []) ++
  (if 1/2 < |s.hue| then [⟨.hue, some (s.hue / 200)⟩] else []) ++
  [⟨.brightness, some (s.brightness / 200)⟩] ++
  (if 1/2 < |s.exposure| then [⟨.exposure, some (s.exposure / 100)⟩] else []) ++
  (if 1/2 < |s.contrast| then [⟨.contrast, none⟩] else []) ++
  (if 1/2 < |s.blacks| then [⟨.blacks, none⟩] else []) ++
  (if 1/2 < |s.whites| then [⟨.whites, some (s.whites / 400)⟩] else []) ++
  (if 1/2 < |s.highlights| then [⟨.highlights, some (s.highlights / 100)⟩] else []) ++
  (if 1/2 < |s.shadows| then [⟨.shadows, some (s.shadows / 100)⟩] else []) ++
  (if 1/2 < |s.dehaze| then [⟨.dehaze, some (s.dehaze / 100)⟩] else []) ++
  (if 1/2 < s.bloom then [⟨.bloom, some (s.bloom / 100)⟩] else []) ++
  (if 1/2 < s.glamour then [⟨.glamour, some (s.glamour / 100)⟩] else []) ++
  (if 1/2 < |s.clarity| then [⟨.clarity, some (s.clarity / 100)⟩] else []) ++
  (if 1/2 < s.sharpen then [⟨.sharpen, some (s.sharpen / 100)⟩] else []) ++
  (if 1/2 < s.smooth then [⟨.smooth, some (s.smooth / 100)⟩] else []) ++
  [⟨.blurH, none⟩, ⟨.blurV, none⟩,
   ⟨.vignette, some (s.vignette / 100)⟩,
   ⟨.grain, some (s.grain / 800)⟩,
   ⟨.finalBlit, none⟩]

/-- Translation of the WebGPU `drawFrame` (backends/webgpu/index.ts): the same
guards and the same scalar uniforms as the WebGL backend; sharpen and smooth
are dispatched through the shared `kernel` pipeline, distinguished by the
uploaded kernel coefficients. -/
def webgpuDrawFrame (s : Settings) : List Pass :=
  (if 1/2 < |s.vibrance| then [⟨.vibrance, some (s.vibrance / 100)⟩] else []) ++
  (if 1/2 < |s.saturation| then [⟨.saturation, none⟩] else []) ++
  (if 1/2 < |s.temperature| then [⟨.temperature, some (s.temperature / 500)⟩] else []) ++
  (if 1/2 < |s.tint| then [⟨.tint, some (s.tint / 500)⟩] else []) ++
  (if 1/2 < |s.hue| then [⟨.hue, some (s.hue / 200)⟩] else []) ++
  [⟨.brightness, some (s.brightness / 200)⟩] ++
  (if 1/2 < |s.exposure| then [⟨.exposure, some (s.exposure / 100)⟩] else []) ++
  (if 1/2 < |s.contrast| then [⟨.contrast, none⟩] else []) ++
  (if 1/2 < |s.blacks| then [⟨.blacks, none⟩] else []) ++
  (if 1/2 < |s.whites| then [⟨.whites, some (s.whites / 400)⟩] else []) ++
  (if 1/2 < |s.highlights| then [⟨.highlights, some (s.highlights / 100)⟩] else []) ++
  (if 1/2 < |s.shadows| then [⟨.shadows, some (s.shadows / 100)⟩] else []) ++
  (if 1/2 < |s.dehaze| then [⟨.dehaze, some (s.dehaze / 100)⟩] else []) ++
  (if 1/2 < s.bloom then [⟨.bloom, some (s.bloom / 100)⟩] else []) ++
  (if 1/2 < s.glamour then [⟨.glamour, some (s.glamour / 100)⟩] else []) ++
  (if 1/2 < |s.clarity| then [⟨.clarity, some (s.clarity / 100)⟩] else []) ++
  (if 1/2 < s.sharpen then [⟨.sharpen, some (s.sharpen / 100)⟩] else []) ++
  (if 1/2 < s.smooth then [⟨.smooth, some (s.smooth / 100)⟩] else []) ++
  [⟨.blurH, none⟩, ⟨.blurV, none⟩,
   ⟨.vignette, some (s.vignette / 100)⟩,
   ⟨.grain, some (s.grain / 800)⟩,
   ⟨.finalBlit, none⟩]

/-- The program identifiers of the draw calls of one render, in order. -/
def passIds (s : Settings) : List PassId := (drawFrame s).map Pass.id

/-- The WebGPU pass identifiers of one render, in order. -/
def webgpuPassIds (s : Settings) : List PassId := (webgpuDrawFrame s).map Pass.id

/-- The pass `p` is executed when rendering with settings `s`. -/
def executes (s : Settings) (p : PassId) : Prop := p ∈ passIds s

/-- The fixed catalog order of the pipeline (spec section 4.2). -/
def catalogOrder : List PassId :=
  [.vibrance, .saturation, .temperature, .tint, .hue, .brightness, .exposure,
   .contrast, .blacks, .whites, .highlights, .shadows, .dehaze, .bloom,
   .glamour, .clarity, .sharpen, .smooth, .blurH, .blurV, .vignette, .grain,
   .finalBlit]

/-- The fixed per-effect divisor table of `drawFrame`: the scalar uniform
uploaded for each executed pass is the raw settings value divided by this
effect's divisor; matrix/palette/blur/blit passes carry no scalar effect
uniform. -/
def scalarUniform (s : Settings) : PassId → Option ℚ
  | .vibrance => some (s.vibrance / 100)
  | .saturation => none
  | .temperature => some (s.temperature / 500)
  | .tint => some (s.tint / 500)
  | .hue => some (s.hue / 200)
  | .brightness => some (s.brightness / 200)
  | .exposure => some (s.exposure / 100)
  | .contrast => none
  | .blacks => none
  | .whites => some (s.whites / 400)
  | .highlights => some (s.highlights / 100)
  | .shadows => some (s.shadows / 100)
  | .dehaze => some (s.dehaze / 100)
  | .bloom => some (s.bloom / 100)
  | .glamour => some (s.glamour / 100)
  | .clarity => some (s.clarity / 100)
  | .sharpen => some (s.sharpen / 100)
  | .smooth => some (s.smooth / 100)
  | .blurH => none
  | .blurV => none
  | .vignette => some (s.vignette / 100)
  | .grain => some (s.grain / 800)
  | .finalBlit => none

theorem mem_ite_singleton {α : Type} {x a : α} {c : Prop} [Decidable c] :
    (x ∈ if c then [a] else []) ↔ c ∧ x = a := by
  split <;> simp_all

theorem map_ite_singleton {α β : Type} (f : α → β) (a : α) (c : Prop) [Decidable c] :
    (if c then [a] else []).map f = (if c then [f a] else []) := by
  split <;> simp

theorem ite_singleton_sublist {α : Type} {a : α} {c : Prop} [Decidable c] :
    List.Sublist (if c then [a] else []) [a] := by
  split
  · exact List.Sublist.refl _
  · exact List.nil_sublist _

theorem count_ite_singleton_ne {α : Type} [DecidableEq α] {b a : α} (c : Prop)
    [Decidable c] (h : ¬a = b) : List.count b (if c then [a] else []) = 0 := by
  split <;> simp [List.count_cons, h]

/-- C1 counterexample: with every settings field at its neutral value 0, the
horizontal blur sub-pass is still executed, so the executed passes are not
only brightness, vignette, grain and the final blit. -/
theorem drawFrame_neutral_runs_blur :
    PassId.blurH ∈ passIds defaultSettings ∧
    PassId.blurH ∉ [PassId.brightness, PassId.vignette, PassId.grain, PassId.finalBlit] := by
  norm_num [passIds, drawFrame, defaultSettings]
  decide

/-- C1 (amended): each guarded effect pass executes exactly when its
activation predicate holds — effects guarded with `Math.abs` run iff
`|value| > 0.5`, the unipolar bloom/glamour/sharpen/smooth run iff
`value > 0.5` — while brightness, BOTH blur sub-passes, vignette, grain and
the final blit always run; consequently with all settings at 0 the executed
passes are brightness, blur (horizontal, vertical), vignette, grain and the
final blit. -/
theorem activation_predicate_characterization (s : Settings) :
    (executes s .vibrance ↔ 1/2 < |s.vibrance|) ∧
    (executes s .saturation ↔ 1/2 < |s.saturation|) ∧
    (executes s .temperature ↔ 1/2 < |s.temperature|) ∧
    (executes s .tint ↔ 1/2 < |s.tint|) ∧
    (executes s .hue ↔ 1/2 < |s.hue|) ∧
    executes s .brightness ∧
    (executes s .exposure ↔ 1/2 < |s.exposure|) ∧
    (executes s .contrast ↔ 1/2 < |s.contrast|) ∧
    (executes s .blacks ↔ 1/2 < |s.blacks|) ∧
    (executes s .whites ↔ 1/2 < |s.whites|) ∧
    (executes s .highlights ↔ 1/2 < |s.highlights|) ∧
    (executes s .shadows ↔ 1/2 < |s.shadows|) ∧
    (executes s .dehaze ↔ 1/2 < |s.dehaze|) ∧
    (executes s .bloom ↔ 1/2 < s.bloom) ∧
    (executes s .glamour ↔ 1/2 < s.glamour) ∧
    (executes s .clarity ↔ 1/2 < |s.clarity|) ∧
    (executes s .sharpen ↔ 1/2 < s.sharpen) ∧
    (executes s .smooth ↔ 1/2 < s.smooth) ∧
    executes s .blurH ∧
    executes s .blurV ∧
    executes s .vignette ∧
    executes s .grain ∧
    executes s .finalBlit ∧
    passIds defaultSettings =
      [.brightness, .blurH, .blurV, .vignette, .grain, .finalBlit] := by
  have hneutral : passIds defaultSettings =
      [PassId.brightness, .blurH, .blurV, .vignette, .grain, .finalBlit] := by
    norm_num [passIds, drawFrame, defaultSettings]
  refine ⟨?_, ?_, ?_, ?_, ?_, ?_, ?_, ?_, ?_, ?_, ?_, ?_, ?_, ?_, ?_, ?_, ?_, ?_,
    ?_, ?_, ?_, ?_, ?_, hneutral⟩ <;>
    simp [executes, passIds, drawFrame, List.map_append, map_ite_singleton,
      List.mem_append, mem_ite_singleton]

/-- C2: the executed passes of a render always form a subsequence of the
fixed catalog order (vibrance, saturation, temperature, tint, hue,
brightness, exposure, contrast, blacks, whites, highlights, shadows, dehaze,
bloom, glamour, clarity, sharpen, smooth, blur horizontal, blur vertical,
vignette, grain, final blit) — skipped effects are omitted without reordering
the rest — the final blit is the unique last pass, and the WebGPU backend
executes the identical sequence. -/
theorem pass_order_invariant (s : Settings) :
    List.Sublist (passIds s) catalogOrder ∧
    (passIds s).getLast? = some PassId.finalBlit ∧
    (passIds s).count PassId.finalBlit = 1 ∧
    webgpuPassIds s = passIds s := by
  refine ⟨?_, ?_, ?_, rfl⟩
  · have hcat : catalogOrder
        = [PassId.vibrance] ++ [PassId.saturation] ++ [PassId.temperature] ++
          [PassId.tint] ++ [PassId.hue] ++ [PassId.brightness] ++
          [PassId.exposure] ++ [PassId.contrast] ++ [PassId.blacks] ++
          [PassId.whites] ++ [PassId.highlights] ++ [PassId.shadows] ++
          [PassId.dehaze] ++ [PassId.bloom] ++ [PassId.glamour] ++
          [PassId.clarity] ++ [PassId.sharpen] ++ [PassId.smooth] ++
          [PassId.blurH, PassId.blurV, PassId.vignette, PassId.grain,
           PassId.finalBlit] := rfl
    rw [hcat]
    show List.Sublist ((drawFrame s).map Pass.id) _
    simp only [drawFrame, List.map_append, map_ite_singleton, List.map_cons,
      List.map_nil]
    exact
      (((((((((((((((((ite_singleton_sublist.append
        ite_singleton_sublist).append
        ite_singleton_sublist).append
        ite_singleton_sublist).append
        ite_singleton_sublist).append
        (List.Sublist.refl _)).append
        ite_singleton_sublist).append
        ite_singleton_sublist).append
        ite_singleton_sublist).append
        ite_singleton_sublist).append
        ite_singleton_sublist).append
        ite_singleton_sublist).append
        ite_singleton_sublist).append
        ite_singleton_sublist).append
        ite_singleton_sublist).append
        ite_singleton_sublist).append
        ite_singleton_sublist).append
        ite_singleton_sublist).append
        (List.Sublist.refl _)
  · show ((drawFrame s).map Pass.id).getLast? = some PassId.finalBlit
    simp only [drawFrame, List.map_append, map_ite_singleton, List.map_cons,
      List.map_nil]
    rw [show ([PassId.blurH, .blurV, .vignette, .grain, .finalBlit])
        = [PassId.blurH, .blurV, .vignette, .grain] ++ [PassId.finalBlit] from rfl,
      ← List.append_assoc]
    exact List.getLast?_concat _
  · show ((drawFrame s).map Pass.id).count PassId.finalBlit = 1
    simp only [drawFrame, List.map_append, map_ite_singleton, List.map_cons,
      List.map_nil, List.count_append]
    rw [count_ite_singleton_ne _ (by decide), count_ite_singleton_ne _ (by decide),
      count_ite_singleton_ne _ (by decide), count_ite_singleton_ne _ (by decide),
      count_ite_singleton_ne _ (by decide), count_ite_singleton_ne _ (by decide),
      count_ite_singleton_ne _ (by decide), count_ite_singleton_ne _ (by decide),
      count_ite_singleton_ne _ (by decide), count_ite_singleton_ne _ (by decide),
      count_ite_singleton_ne _ (by decide), count_ite_singleton_ne _ (by decide),
      count_ite_singleton_ne _ (by decide), count_ite_singleton_ne _ (by decide),
      count_ite_singleton_ne _ (by decide), count_ite_singleton_ne _ (by decide),
      count_ite_singleton_ne _ (by decide)]
    decide

/-- C3: for every settings record, the scalar effect uniform uploaded by each
executed pass equals the raw settings value divided by that effect's fixed
divisor, as recorded in the `scalarUniform` table (vibrance 100,
temperature 500, tint 500, hue 200, brightness 200, exposure 100, whites 400,
highlights 100, shadows 100, dehaze 100, bloom 100, glamour 100, clarity 100,
sharpen 100, smooth 100, vignette 100, grain 800). -/
theorem scalar_uniform_divisors (s : Settings) :
    ∀ p ∈ drawFrame s, p.amount = scalarUniform s p.id := by
  intro p hp
  simp only [drawFrame, List.mem_append, mem_ite_singleton, List.mem_cons,
    List.mem_singleton, List.not_mem_nil, or_false, or_assoc] at hp
  rcases hp with ⟨_, rfl⟩ | ⟨_, rfl⟩ | ⟨_, rfl⟩ | ⟨_, rfl⟩ | ⟨_, rfl⟩ | rfl |
    ⟨_, rfl⟩ | ⟨_, rfl⟩ | ⟨_, rfl⟩ | ⟨_, rfl⟩ | ⟨_, rfl⟩ | ⟨_, rfl⟩ | ⟨_, rfl⟩ |
    ⟨_, rfl⟩ | ⟨_, rfl⟩ | ⟨_, rfl⟩ | ⟨_, rfl⟩ | ⟨_, rfl⟩ | rfl | rfl | rfl |
    rfl | rfl <;>
    simp [scalarUniform]

/-- Witness for C3 at a concrete input: with default settings the brightness
pass uploads `0 / 200 = 0`. -/
theorem scalar_uniform_divisors_witness :
    (⟨PassId.brightness, some 0⟩ : Pass).amount
      = scalarUniform defaultSettings PassId.brightness :=
  scalar_uniform_divisors defaultSettings ⟨PassId.brightness, some 0⟩
    (by norm_num [drawFrame, defaultSettings])

/-- State of an `ImageColorGrading` instance (processor.ts / the backend
version): the current settings, whether an image has been loaded, whether a
backend object exists, and `neutralFrame`, the pixel buffer that
`getImageData()` returns after a render with `defaultSettings` (the GPU
readback itself is opaque to this embedding). -/
structure EngineState where
  settings : Settings
  imageLoaded : Bool
  backendPresent : Bool
  neutralFrame : ImageData

/-- Translation of `setSettings` (part of `ImageColorGrading`):
`this.settings = { ...this.settings, ...newSettings }`, then `render()` runs
exactly when a backend exists and an image is loaded.  The returned boolean
records whether a render was triggered. -/
def setSettings (st : EngineState) (p : PartialSettings) : EngineState × Bool :=
  ({ st with settings := mergeSettings st.settings p },
   st.backendPresent && st.imageLoaded)

/-- One field of a settings merge behaves like a JavaScript spread override:
absent fields keep the previous value, present fields take the new one. -/
def overrideSpec (o : Option ℚ) (old new : ℚ) : Prop :=
  (o = none → new = old) ∧ ∀ v, o = some v → new = v

theorem overrideSpec_getD (o : Option ℚ) (d : ℚ) : overrideSpec o d (o.getD d) := by
  cases o <;> simp [overrideSpec]

/-- Translation of `autoFix` (processor.ts lines 455-484, identically the
backend version): throws when no image is loaded, otherwise resets the
settings to `defaultSettings`, renders, analyzes the read-back pixels, and
derives a fresh settings record (whites and blacks from the levels analysis,
vibrance from the vibrance estimate capped at 50) which it stores and
returns. -/
def autoFix (st : EngineState) : Except Unit (EngineState × Settings) :=
  if st.imageLoaded && st.backendPresent then
    let img := st.neutralFrame
    let levels := analyzeImageLevels img
    let vibrance := analyzeImageVibrance img
    let s1 : Settings :=
      { defaultSettings with
        whites := (jsRound ((255 : ℚ) - levels.white) : ℚ),
        blacks := (jsRound (levels.black : ℚ) : ℚ) }
    let s2 : Settings :=
      if vibrance < 7/10 then
        { s1 with vibrance := (min (jsRound ((7/10 - vibrance) * 100)) 50 : ℚ) }
      else s1
    .ok ({ st with settings := s2 }, s2)
  else .error ()

/-- Translation of `applyPreset` (processor.ts lines 491-508): the `auto`
preset delegates to `autoFix`; any other preset builds
`{ ...defaultSettings, ...presets[preset] }`, stores it, renders when a
backend exists and an image is loaded, and returns the new record.  The
boolean records whether a render was triggered. -/
def applyPreset (st : EngineState) (preset : PresetType) :
    Except Unit (EngineState × Settings × Bool) :=
  if preset = .auto then
    (autoFix st).map fun r => (r.1, r.2, true)
  else
    let ns := mergeSettings defaultSettings (presets preset)
    .ok ({ st with settings := ns }, ns, st.backendPresent && st.imageLoaded)

/-- C9: `setSettings(p)` replaces exactly the fields present in `p` and keeps
every absent field; it leaves the loaded flag alone and triggers a render if
and only if an image is loaded (the engine maintains the invariant that a
loaded image implies a live backend, taken here as the hypothesis `hinv`). -/
theorem setSettings_spec (st : EngineState) (p : PartialSettings)
    (hinv : st.imageLoaded = true → st.backendPresent = true) :
    overrideSpec p.vibrance st.settings.vibrance (setSettings st p).1.settings.vibrance ∧
    overrideSpec p.saturation st.settings.saturation (setSettings st p).1.settings.saturation ∧
    overrideSpec p.temperature st.settings.temperature (setSettings st p).1.settings.temperature ∧
    overrideSpec p.tint st.settings.tint (setSettings st p).1.settings.tint ∧
    overrideSpec p.hue st.settings.hue (setSettings st p).1.settings.hue ∧
    overrideSpec p.brightness st.settings.brightness (setSettings st p).1.settings.brightness ∧
    overrideSpec p.exposure st.settings.exposure (setSettings st p).1.settings.exposure ∧
    overrideSpec p.contrast st.settings.contrast (setSettings st p).1.settings.contrast ∧
    overrideSpec p.blacks st.settings.blacks (setSettings st p).1.settings.blacks ∧
    overrideSpec p.whites st.settings.whites (setSettings st p).1.settings.whites ∧
    overrideSpec p.highlights st.settings.highlights (setSettings st p).1.settings.highlights ∧
    overrideSpec p.shadows st.settings.shadows (setSettings st p).1.settings.shadows ∧
    overrideSpec p.dehaze st.settings.dehaze (setSettings st p).1.settings.dehaze ∧
    overrideSpec p.bloom st.settings.bloom (setSettings st p).1.settings.bloom ∧
    overrideSpec p.glamour st.settings.glamour (setSettings st p).1.settings.glamour ∧
    overrideSpec p.clarity st.settings.clarity (setSettings st p).1.settings.clarity ∧
    overrideSpec p.sharpen st.settings.sharpen (setSettings st p).1.settings.sharpen ∧
    overrideSpec p.smooth st.settings.smooth (setSettings st p).1.settings.smooth ∧
    overrideSpec p.blur st.settings.blur (setSettings st p).1.settings.blur ∧
    overrideSpec p.vignette st.settings.vignette (setSettings st p).1.settings.vignette ∧
    overrideSpec p.grain st.settings.grain (setSettings st p).1.settings.grain ∧
    (setSettings st p).1.imageLoaded = st.imageLoaded ∧
    (setSettings st p).2 = st.imageLoaded := by
  refine ⟨overrideSpec_getD _ _, overrideSpec_getD _ _, overrideSpec_getD _ _,
    overrideSpec_getD _ _, overrideSpec_getD _ _, overrideSpec_getD _ _,
    overrideSpec_getD _ _, overrideSpec_getD _ _, overrideSpec_getD _ _,
    overrideSpec_getD _ _, overrideSpec_getD _ _, overrideSpec_getD _ _,
    overrideSpec_getD _ _, overrideSpec_getD _ _, overrideSpec_getD _ _,
    overrideSpec_getD _ _, overrideSpec_getD _ _, overrideSpec_getD _ _,
    overrideSpec_getD _ _, overrideSpec_getD _ _, overrideSpec_getD _ _,
    rfl, ?_⟩
  show (st.backendPresent && st.imageLoaded) = st.imageLoaded
  cases hl : st.imageLoaded with
  | false => simp
  | true => simp [hinv hl]

/-- Witness for C9 at a concrete input: merging `{brightness := 20}` into a
loaded engine state triggers a render and overrides only brightness. -/
theorem setSettings_spec_witness :
    ((⟨defaultSettings, true, true, ⟨0, 0, []⟩⟩ : EngineState).imageLoaded = true →
      (⟨defaultSettings, true, true, ⟨0, 0, []⟩⟩ : EngineState).backendPresent = true) ∧
    (setSettings ⟨defaultSettings, true, true, ⟨0, 0, []⟩⟩
        { brightness := some 20 }).2
      = (⟨defaultSettings, true, true, ⟨0, 0, []⟩⟩ : EngineState).imageLoaded :=
  ⟨fun _ => rfl,
    (setSettings_spec ⟨defaultSettings, true, true, ⟨0, 0, []⟩⟩
      { brightness := some 20 } (fun _ => rfl)).2.2.2.2.2.2.2.2.2.2.2.2.2.2.2.2.2.2.2.2.2.2⟩

/-- C4: for a loaded image, `autoFix` analyzes the neutral-render readback and
applies and returns a settings record with `whites = round(255 - white)` and
`blacks = round(black)` from the levels analysis,
`vibrance = min(round((0.7 - estimate) * 100), 50)` when the vibrance
estimate is below 0.7 and 0 otherwise, and every other field at its default
value 0. -/
theorem autoFix_spec (st : EngineState) (h1 : st.imageLoaded = true)
    (h2 : st.backendPresent = true) :
    ∃ st2 ns, autoFix st = .ok (st2, ns) ∧
      ns.whites = (jsRound ((255 : ℚ) - (analyzeImageLevels st.neutralFrame).white) : ℚ) ∧
      ns.blacks = (jsRound ((analyzeImageLevels st.neutralFrame).black : ℚ) : ℚ) ∧
      ns.vibrance = (if analyzeImageVibrance st.neutralFrame < 7/10
        then (min (jsRound ((7/10 - analyzeImageVibrance st.neutralFrame) * 100)) 50 : ℚ)
        else 0) ∧
      ns.saturation = 0 ∧ ns.temperature = 0 ∧ ns.tint = 0 ∧ ns.hue = 0 ∧
      ns.brightness = 0 ∧ ns.exposure = 0 ∧ ns.contrast = 0 ∧
      ns.highlights = 0 ∧ ns.shadows = 0 ∧ ns.dehaze = 0 ∧ ns.bloom = 0 ∧
      ns.glamour = 0 ∧ ns.clarity = 0 ∧ ns.sharpen = 0 ∧ ns.smooth = 0 ∧
      ns.blur = 0 ∧ ns.vignette = 0 ∧ ns.grain = 0 ∧
      st2.settings = ns ∧ st2.imageLoaded = st.imageLoaded := by
  have hcond : (st.imageLoaded && st.backendPresent) = true := by rw [h1, h2]; rfl
  unfold autoFix
  rw [if_pos hcond]
  refine ⟨_, _, rfl, ?_⟩
  by_cases hv : analyzeImageVibrance st.neutralFrame < 7/10 <;>
    simp [hv, defaultSettings]

/-- Witness for C4 at a concrete input: a loaded engine whose neutral readback
is a 1-by-1 solid white image. -/
theorem autoFix_spec_witness :
    ∃ st2 ns,
      autoFix ⟨defaultSettings, true, true, ⟨1, 1, [255, 255, 255, 255]⟩⟩ = .ok (st2, ns) ∧
      ns.whites = (jsRound ((255 : ℚ) -
        (analyzeImageLevels (⟨1, 1, [255, 255, 255, 255]⟩ : ImageData)).white) : ℚ) ∧
      ns.blacks = (jsRound
        (((analyzeImageLevels (⟨1, 1, [255, 255, 255, 255]⟩ : ImageData)).black : ℚ)) : ℚ) ∧
      ns.vibrance = (if analyzeImageVibrance (⟨1, 1, [255, 255, 255, 255]⟩ : ImageData) < 7/10
        then (min (jsRound ((7/10 -
          analyzeImageVibrance (⟨1, 1, [255, 255, 255, 255]⟩ : ImageData)) * 100)) 50 : ℚ)
        else 0) ∧
      ns.saturation = 0 ∧ ns.temperature = 0 ∧ ns.tint = 0 ∧ ns.hue = 0 ∧
      ns.brightness = 0 ∧ ns.exposure = 0 ∧ ns.contrast = 0 ∧
      ns.highlights = 0 ∧ ns.shadows = 0 ∧ ns.dehaze = 0 ∧ ns.bloom = 0 ∧
      ns.glamour = 0 ∧ ns.clarity = 0 ∧ ns.sharpen = 0 ∧ ns.smooth = 0 ∧
      ns.blur = 0 ∧ ns.vignette = 0 ∧ ns.grain = 0 ∧
      st2.settings = ns ∧
      st2.imageLoaded =
        (⟨defaultSettings, true, true, ⟨1, 1, [255, 255, 255, 255]⟩⟩ : EngineState).imageLoaded :=
  autoFix_spec ⟨defaultSettings, true, true, ⟨1, 1, [255, 255, 255, 255]⟩⟩ rfl rfl

/-- C10: for every preset other than `auto`, `applyPreset` replaces the whole
settings record by `defaultSettings` overridden only by the fields named in
`presets[preset]` — every unnamed field becomes its default 0, nothing is
merged from the current settings — returns the new record even when no image
is loaded, and triggers a render exactly when a backend exists and an image
is loaded. -/
theorem applyPreset_spec (st : EngineState) (preset : PresetType)
    (hp : preset ≠ .auto) :
    ∃ st2 ns rendered, applyPreset st preset = .ok (st2, ns, rendered) ∧
      ns.vibrance = ((presets preset).vibrance).getD 0 ∧
      ns.saturation = ((presets preset).saturation).getD 0 ∧
      ns.temperature = ((presets preset).temperature).getD 0 ∧
      ns.tint = ((presets preset).tint).getD 0 ∧
      ns.hue = ((presets preset).hue).getD 0 ∧
      ns.brightness = ((presets preset).brightness).getD 0 ∧
      ns.exposure = ((presets preset).exposure).getD 0 ∧
      ns.contrast = ((presets preset).contrast).getD 0 ∧
      ns.blacks = ((presets preset).blacks).getD 0 ∧
      ns.whites = ((presets preset).whites).getD 0 ∧
      ns.highlights = ((presets preset).highlights).getD 0 ∧
      ns.shadows = ((presets preset).shadows).getD 0 ∧
      ns.dehaze = ((presets preset).dehaze).getD 0 ∧
      ns.bloom = ((presets preset).bloom).getD 0 ∧
      ns.glamour = ((presets preset).glamour).getD 0 ∧
      ns.clarity = ((presets preset).clarity).getD 0 ∧
      ns.sharpen = ((presets preset).sharpen).getD 0 ∧
      ns.smooth = ((presets preset).smooth).getD 0 ∧
      ns.blur = ((presets preset).blur).getD 0 ∧
      ns.vignette = ((presets preset).vignette).getD 0 ∧
      ns.grain = ((presets preset).grain).getD 0 ∧
      st2.settings = ns ∧ st2.imageLoaded = st.imageLoaded ∧
      rendered = (st.backendPresent && st.imageLoaded) := by
  unfold applyPreset
  rw [if_neg hp]
  exact ⟨_, _, _, rfl, rfl, rfl, rfl, rfl, rfl, rfl, rfl, rfl, rfl, rfl, rfl,
    rfl, rfl, rfl, rfl, rfl, rfl, rfl, rfl, rfl, rfl, rfl, rfl, rfl⟩

/-- Witness for C10 at a concrete input: applying the `vintage` preset on an
engine with no image loaded still returns the preset record. -/
theorem applyPreset_spec_witness :
    ∃ st2 ns rendered,
      applyPreset ⟨defaultSettings, false, false, ⟨0, 0, []⟩⟩ .vintage
        = .ok (st2, ns, rendered) ∧
      ns.vibrance = ((presets .vintage).vibrance).getD 0 ∧
      ns.saturation = ((presets .vintage).saturation).getD 0 ∧
      ns.temperature = ((presets .vintage).temperature).getD 0 ∧
      ns.tint = ((presets .vintage).tint).getD 0 ∧
      ns.hue = ((presets .vintage).hue).getD 0 ∧
      ns.brightness = ((presets .vintage).brightness).getD 0 ∧
      ns.exposure = ((presets .vintage).exposure).getD 0 ∧
      ns.contrast = ((presets .vintage).contrast).getD 0 ∧
      ns.blacks = ((presets .vintage).blacks).getD 0 ∧
      ns.whites = ((presets .vintage).whites).getD 0 ∧
      ns.highlights = ((presets .vintage).highlights).getD 0 ∧
      ns.shadows = ((presets .vintage).shadows).getD 0 ∧
      ns.dehaze = ((presets .vintage).dehaze).getD 0 ∧
      ns.bloom = ((presets .vintage).bloom).getD 0 ∧
      ns.glamour = ((presets .vintage).glamour).getD 0 ∧
      ns.clarity = ((presets .vintage).clarity).getD 0 ∧
      ns.sharpen = ((presets .vintage).sharpen).getD 0 ∧
      ns.smooth = ((presets .vintage).smooth).getD 0 ∧
      ns.blur = ((presets .vintage).blur).getD 0 ∧
      ns.vignette = ((presets .vintage).vignette).getD 0 ∧
      ns.grain = ((presets .vintage).grain).getD 0 ∧
      st2.settings = ns ∧
      st2.imageLoaded =
        (⟨defaultSettings, false, false, ⟨0, 0, []⟩⟩ : EngineState).imageLoaded ∧
      rendered =
        ((⟨defaultSettings, false, false, ⟨0, 0, []⟩⟩ : EngineState).backendPresent &&
          (⟨defaultSettings, false, false, ⟨0, 0, []⟩⟩ : EngineState).imageLoaded) :=
  applyPreset_spec ⟨defaultSettings, false, false, ⟨0, 0, []⟩⟩ .vintage (by decide)

/-- Backend identifier (`BackendType` in backends/base). -/
inductive BackendType
  | webgl
  | webgpu
  deriving DecidableEq

/-- The `backend` option of the `ImageColorGrading` constructor;
`none` models `undefined`. -/
inductive PreferredBackend
  | auto
  | webgl
  | webgpu
  deriving DecidableEq

/-- The browser environment the backend probes observe:
`webgpuSupported` is `'gpu' in navigator` (`isWebGPUSupported`),
`webglSupported` is whether a WebGL context can be created
(`isWebGLSupported`), and the two `InitFails` flags record whether the
respective backend's `init()` throws. -/
structure GpuEnv where
  webgpuSupported : Bool
  webglSupported : Bool
  webgpuInitFails : Bool
  webglInitFails : Bool
  deriving DecidableEq

/-- The concrete backend object constructed (`WebGPUBackend` /
`WebGLBackend`). -/
inductive BackendInstance
  | webglB
  | webgpuB
  deriving DecidableEq

/-- Translation of `selectBestBackend` (backends/webgl/index.ts lines
695-710, shared base module): honour an explicit supported preference, fall
back to capability order WebGPU-then-WebGL in `auto`/unspecified mode, and
throw when nothing applies. -/
def selectBestBackend (env : GpuEnv) (preferred : Option PreferredBackend) :
    Except Unit BackendType :=
  if preferred = some .webgpu ∧ env.webgpuSupported then .ok .webgpu
  else if preferred = some .webgl ∧ env.webglSupported then .ok .webgl
  else if preferred = some .auto ∨ preferred = none then
    if env.webgpuSupported then .ok .webgpu
    else if env.webglSupported then .ok .webgl
    else .error ()
  else .error ()

/-- `WebGPUBackend.init()`: rejects when the adapter/device request fails. -/
def webgpuInit (env : GpuEnv) : Except Unit Unit :=
  if env.webgpuInitFails then .error () else .ok ()

/-- `WebGLBackend.init()`: throws when no WebGL context can be created. -/
def webglInit (env : GpuEnv) : Except Unit Unit :=
  if env.webglInitFails then .error () else .ok ()

/-- Translation of `initBackend` (the backend-aware `ImageColorGrading`,
lines 273-292): when the selected type is WebGPU, construct it and try
`init()`; on failure construct a WebGL backend, run its `init()` (one retry,
errors propagate), and set `backendType = 'webgl'`.  The returned pair is the
constructed backend object and the `backendType` field that
`getBackendType()` reports afterwards. -/
def initBackend (env : GpuEnv) (bt : BackendType) :
    Except Unit (BackendInstance × BackendType) :=
  match bt with
  | .webgpu =>
    match webgpuInit env with
    | .ok _ => .ok (.webgpuB, .webgpu)
    | .error _ =>
      match webglInit env with
      | .ok _ => .ok (.webglB, .webgl)
      | .error e => .error e
  | .webgl =>
    match webglInit env with
    | .ok _ => .ok (.webglB, .webgl)
    | .error e => .error e

/-- Construction followed by backend initialisation: the constructor stores
`selectBestBackend(options.backend)` and `ensureBackend` later runs
`initBackend`. -/
def constructAndInit (env : GpuEnv) (preferred : Option PreferredBackend) :
    Except Unit (BackendInstance × BackendType) :=
  match selectBestBackend env preferred with
  | .ok bt => initBackend env bt
  | .error e => .error e

/-- C7: in default (`auto`/unspecified) mode, when WebGPU is unavailable at
the capability probe or its `init()` throws, the engine falls back to the
WebGL backend — one retry, fatal when WebGL also fails — and
`getBackendType()` thereafter reports `webgl`, never the WebGPU backend that
failed; the reported type always matches the backend actually in use. -/
theorem backend_fallback_spec (env : GpuEnv) :
    (env.webgpuSupported = false → env.webglSupported = true →
      env.webglInitFails = false →
      constructAndInit env none = .ok (.webglB, .webgl)) ∧
    (env.webgpuSupported = true → env.webgpuInitFails = true →
      env.webglInitFails = false →
      constructAndInit env none = .ok (.webglB, .webgl)) ∧
    (env.webgpuSupported = true → env.webgpuInitFails = true →
      env.webglInitFails = true →
      constructAndInit env none = .error ()) ∧
    (∀ r, constructAndInit env none = .ok r →
      (env.webgpuSupported = false ∨ env.webgpuInitFails = true) →
      r = (.webglB, .webgl)) ∧
    (∀ r, constructAndInit env none = .ok r →
      (r.2 = .webgl ↔ r.1 = .webglB)) ∧
    constructAndInit env (some .auto) = constructAndInit env none := by
  rcases env with ⟨gpuSup, glSup, gpuFail, glFail⟩
  cases gpuSup <;> cases glSup <;> cases gpuFail <;> cases glFail <;>
    simp [constructAndInit, selectBestBackend, initBackend, webgpuInit, webglInit]

/-- Witness for C7 at a concrete input: WebGPU present but failing to
initialise, WebGL healthy. -/
theorem backend_fallback_spec_witness :
    constructAndInit ⟨true, true, true, false⟩ none
      = .ok (BackendInstance.webglB, BackendType.webgl) :=
  (backend_fallback_spec ⟨true, true, true, false⟩).2.1 rfl rfl rfl

set_option maxRecDepth 4000 in
/-- Witness for C5 at a concrete input: a 1-by-1 image with channels
(10, 200, 10) has black point 10 and white point 200. -/
theorem analyzeImageLevels_spec_witness :
    (analyzeImageLevels ⟨1, 1, [10, 200, 10, 255]⟩).black = min 10 100 ∧
    (analyzeImageLevels ⟨1, 1, [10, 200, 10, 255]⟩).white = max 200 155 := by
  have ht : levelThreshold ⟨1, 1, [10, 200, 10, 255]⟩ = 0 := by
    norm_num [levelThreshold, jsRound]
  have h10 : ∀ v < 10, (hist ⟨1, 1, [10, 200, 10, 255]⟩ v : ℤ) ≤ 0 := by decide
  have h256 : ∀ v < 256, 200 < v →
      (hist ⟨1, 1, [10, 200, 10, 255]⟩ v : ℤ) ≤ 0 := by decide
  refine ⟨(analyzeImageLevels_spec ⟨1, 1, [10, 200, 10, 255]⟩).2.2.2.2.1 10
      (by norm_num) ?_ ?_,
    (analyzeImageLevels_spec ⟨1, 1, [10, 200, 10, 255]⟩).2.2.2.2.2 200
      (by norm_num) ?_ ?_⟩
  · rw [ht]; decide
  · intro v hv; rw [ht]; exact h10 v hv
  · rw [ht]; decide
  · intro v h1 h2; rw [ht]; exact h256 v h2 h1

/-- Translation of `buildSaturationMatrix` (utils/common.ts): the flat
4-by-5 row-major affine color matrix for the saturation amount. -/
def buildSaturationMatrix (amount : ℚ) : List ℚ :=
  let t := max (-100) (min 100 amount) / 100
  let scale := 1 + t
  let lumR : ℚ := 299/1000
  let lumG : ℚ := 587/1000
  let lumB : ℚ := 114/1000
  let inv := 1 - scale
  [inv * lumR + scale, inv * lumG, inv * lumB, 0, 0,
   inv * lumR, inv * lumG + scale, inv * lumB, 0, 0,
   inv * lumR, inv * lumG, inv * lumB + scale, 0, 0,
   0, 0, 0, 1, 0]

/-- An RGBA color sample (shader-normalised, white = (1,1,1,1)). -/
structure RGBA where
  r : ℚ
  g : ℚ
  b : ℚ
  a : ℚ
  deriving DecidableEq

/-- Translation of the `saturationFragment` shader body (both backends):
apply the flat 20-entry matrix `m` row-major, each output channel being
`m[5i]*r + m[5i+1]*g + m[5i+2]*b + m[5i+3]*a + m[5i+4]`. -/
def applyColorMatrix (m : List ℚ) (c : RGBA) : RGBA :=
  let e := fun i => m.getD i 0
  { r := e 0 * c.r + e 1 * c.g + e 2 * c.b + e 3 * c.a + e 4,
    g := e 5 * c.r + e 6 * c.g + e 7 * c.b + e 8 * c.a + e 9,
    b := e 10 * c.r + e 11 * c.g + e 12 * c.b + e 13 * c.a + e 14,
    a := e 15 * c.r + e 16 * c.g + e 17 * c.b + e 18 * c.a + e 19 }

/-- The Rec.601 luminance of a color. -/
def rec601Luma (c : RGBA) : ℚ := 299/1000 * c.r + 587/1000 * c.g + 114/1000 * c.b

/-- C8: at `saturation = -100` the saturation matrix has its three color rows
equal to (0.299, 0.587, 0.114, 0, 0), so the pass maps every pixel to
R = G = B = Rec.601 luminance with alpha unchanged, and solid white
(1,1,1,1) maps to itself because 0.299 + 0.587 + 0.114 = 1. -/
theorem saturation_matrix_neutralizes_chroma :
    buildSaturationMatrix (-100) =
      [299/1000, 587/1000, 114/1000, 0, 0,
       299/1000, 587/1000, 114/1000, 0, 0,
       299/1000, 587/1000, 114/1000, 0, 0,
       0, 0, 0, 1, 0] ∧
    (∀ c : RGBA, applyColorMatrix (buildSaturationMatrix (-100)) c
      = ⟨rec601Luma c, rec601Luma c, rec601Luma c, c.a⟩) ∧
    applyColorMatrix (buildSaturationMatrix (-100)) ⟨1, 1, 1, 1⟩ = ⟨1, 1, 1, 1⟩ := by
  have hm : buildSaturationMatrix (-100) =
      [299/1000, 587/1000, 114/1000, 0, 0,
       299/1000, 587/1000, 114/1000, 0, 0,
       299/1000, 587/1000, 114/1000, 0, 0,
       0, 0, 0, 1, 0] := by
    norm_num [buildSaturationMatrix]
  refine ⟨hm, fun c => ?_, ?_⟩
  · rw [hm]
    simp [applyColorMatrix, rec601Luma]
  · rw [hm]
    norm_num [applyColorMatrix]

end ImageEffect
